import Mathlib

/-!
Verification of the RikarenaTech marketplace backend core
(posts lifecycle engine, feed query construction, alert scoping).

The definitions below are a shallow embedding of the Python/Django code:

* posts/models.py      : the Post model, its save override and choices
* posts/serializers.py : PostCreateUpdateSerializer, PostModerationSerializer
* posts/views.py       : PostFeedViewSet, UserPostViewSet, PostModerationViewSet
* posts/services.py    : ImageUploadService.upload_images
* alerts/views.py      : AlertViewSet.get_queryset
* alerts/serializers.py: AlertWriteSerrializer.validate / create

Database rows are explicit Lean structures, nullable columns are Option,
timestamps are natural numbers (measured in days, so that the 30-day
expiry floor is literally an addition of 30).  Django's
save(update_fields=[...]) semantics - the in-memory instance is mutated
in full but only the listed columns are written back - is modelled by
the persistFields function.
-/

namespace Rikarena

/-- Post.StatusChoices from posts/models.py. -/
inductive Status
  | pending_review
  | approved
  | rejected
  | active
  | sold
  | paused
  | expired
deriving DecidableEq, Repr

/-- Post.VisibilityChoices from posts/models.py. -/
inductive Visibility
  | public
  | «private»
  | unlisted
deriving DecidableEq, Repr

/-- The Post model row (posts/models.py, class Post), with the columns the
lifecycle engine reads or writes.  Prices and quantities are exact
decimals, modelled as rationals. -/
structure Post where
  id : Nat
  title : String
  slug : String
  user : Nat
  category : Option Int
  status : Status
  visibility : Visibility
  price : Rat
  quantity : Rat
  unit_of_measure : String
  municipality : Option Nat
  is_featured : Bool
  view_count : Nat
  expires_at : Option Nat
  created_at : Nat
  published_at : Option Nat
  reviewed_by : Option Nat
  reviewed_at : Option Nat
  review_notes : String
deriving DecidableEq, Repr

/-- Environment of a single save call: the current time (timezone.now())
and the random slug suffix uuid4 would produce. -/
structure SaveCtx where
  now : Nat
  freshSlug : String
deriving DecidableEq, Repr

/-- The body of Post.save (posts/models.py lines 138-151): generate a slug
when empty, stamp published_at when the instance is active and the stamp
is missing.  This acts on the in-memory instance. -/
def Post.saveLogic (p : Post) (ctx : SaveCtx) : Post :=
  let p := if p.slug = "" then { p with slug := ctx.freshSlug } else p
  if p.status = Status.active ∧ p.published_at = none then
    { p with published_at := some ctx.now }
  else p

/-- Columns that appear in the update_fields lists of the engine. -/
inductive PostField
  | fStatus
  | fVisibility
  | fPublishedAt
  | fReviewedBy
  | fReviewedAt
  | fReviewNotes
deriving DecidableEq, Repr

/-- Copy one column of the in-memory instance into the stored row. -/
def setField (db mem : Post) : PostField → Post
  | PostField.fStatus => { db with status := mem.status }
  | PostField.fVisibility => { db with visibility := mem.visibility }
  | PostField.fPublishedAt => { db with published_at := mem.published_at }
  | PostField.fReviewedBy => { db with reviewed_by := mem.reviewed_by }
  | PostField.fReviewedAt => { db with reviewed_at := mem.reviewed_at }
  | PostField.fReviewNotes => { db with review_notes := mem.review_notes }

/-- Django write-back semantics: save() with no update_fields stores the
whole instance, save(update_fields=l) stores only the listed columns. -/
def persistFields (db mem : Post) : Option (List PostField) → Post
  | none => mem
  | some l => l.foldl (fun acc f => setField acc mem f) db

/-- instance.save(update_fields=...) as seen from the stored row: run the
Post.save override on the mutated instance, then write back the
requested columns. -/
def savePost (db mem : Post) (ctx : SaveCtx) (updateFields : Option (List PostField)) : Post :=
  persistFields db (mem.saveLogic ctx) updateFields

/-- The caller identity the views receive: request.user together with the
two privilege checks the code performs
(user.groups.filter(name=moderators).exists() and user.is_staff). -/
structure Caller where
  id : Nat
  isModerator : Bool
  isStaff : Bool
deriving DecidableEq, Repr

/-- Errors the engine reports to a client.  badRequest models a direct
Response with HTTP 400 and an error message, validation models a DRF
ValidationError raised with a bare string. -/
inductive ApiError
  | badRequest (msg : String)
  | validation (msg : String)
deriving DecidableEq, Repr

/-- PostModerationSerializer writable payload (posts/serializers.py
lines 319-324): status, visibility, is_featured, review_notes, each
optional because partial updates are allowed. -/
structure ModerationData where
  status : Option Status
  visibility : Option Visibility
  is_featured : Option Bool
  review_notes : Option String
deriving DecidableEq, Repr

/-- PostModerationViewSet approve (posts/views.py lines 664-674): sets the
status to approved and stamps the reviewer, from any current status. -/
def approve (ctx : SaveCtx) (callerId : Nat) (db : Post) : Post :=
  let post := { db with
    status := Status.approved
    reviewed_by := some callerId
    reviewed_at := some ctx.now }
  savePost db post ctx (some [PostField.fStatus, PostField.fReviewedBy, PostField.fReviewedAt])

/-- PostModerationViewSet reject (posts/views.py lines 690-705): sets the
status to rejected, stores the notes and stamps the reviewer, from any
current status. -/
def reject (ctx : SaveCtx) (callerId : Nat) (notes : String) (db : Post) : Post :=
  let post := { db with
    status := Status.rejected
    review_notes := notes
    reviewed_by := some callerId
    reviewed_at := some ctx.now }
  savePost db post ctx
    (some [PostField.fStatus, PostField.fReviewNotes, PostField.fReviewedBy, PostField.fReviewedAt])

/-- PostModerationViewSet activate (posts/views.py lines 714-731): only an
approved post can be activated; published_at is stamped when missing. -/
def activate (ctx : SaveCtx) (db : Post) : Except ApiError Post :=
  if db.status ≠ Status.approved then
    Except.error (ApiError.badRequest "Only approved products can be activated")
  else
    let post := { db with status := Status.active }
    let post :=
      if post.published_at = none then { post with published_at := some ctx.now } else post
    Except.ok (savePost db post ctx (some [PostField.fStatus, PostField.fPublishedAt]))

/-- UserPostViewSet mark_as_sold (posts/views.py lines 495-510): only an
active post can be marked sold. -/
def mark_as_sold (ctx : SaveCtx) (db : Post) : Except ApiError Post :=
  if db.status ≠ Status.active then
    Except.error (ApiError.badRequest "Only active products can be marked as sold")
  else
    let post := { db with status := Status.sold }
    Except.ok (savePost db post ctx (some [PostField.fStatus]))

/-- UserPostViewSet pause_listing (posts/views.py lines 519-538): toggles
between active and paused, rejected from any other status.  The save
call lists only the status column. -/
def pause_listing (ctx : SaveCtx) (db : Post) : Except ApiError Post :=
  if db.status ≠ Status.active ∧ db.status ≠ Status.paused then
    Except.error (ApiError.badRequest "Can only pause/unpause active listings")
  else
    let post :=
      if db.status = Status.active then { db with status := Status.paused }
      else { db with status := Status.active }
    Except.ok (savePost db post ctx (some [PostField.fStatus]))

/-- UserPostViewSet toggle_visibility (posts/views.py lines 473-486):
public becomes private, anything else becomes public; only the
visibility column is written back. -/
def toggle_visibility (ctx : SaveCtx) (db : Post) : Post :=
  let post :=
    if db.visibility = Visibility.public then { db with visibility := Visibility.«private» }
    else { db with visibility := Visibility.public }
  savePost db post ctx (some [PostField.fVisibility])

/-- UserPostViewSet destroy (posts/views.py lines 459-464): soft delete,
visibility is forced to private and the row is kept. -/
def soft_delete (ctx : SaveCtx) (db : Post) : Post :=
  let post := { db with visibility := Visibility.«private» }
  savePost db post ctx (some [PostField.fVisibility])

/-- PostModerationSerializer.update as invoked through
PostModerationViewSet.perform_update (posts/serializers.py lines 326-349
and posts/views.py line 617): the moderator check, the reviewer stamp and
the publish stamp on a change to active, then a full-instance save.
perform_update always passes reviewed_by/reviewed_at, so they are set
even when the status does not change. -/
def moderation_update (ctx : SaveCtx) (caller : Caller) (d : ModerationData) (db : Post) :
    Except ApiError Post :=
  if ¬(caller.isModerator ∨ caller.isStaff) then
    Except.error (ApiError.validation "You do not have permissions to moderate posts.")
  else
    let mem :=
      match d.status with
      | some new_status =>
        if new_status ≠ db.status then
          let mem := { db with
            reviewed_by := some caller.id
            reviewed_at := some ctx.now }
          if new_status = Status.active ∧ mem.published_at = none then
            { mem with published_at := some ctx.now }
          else mem
        else db
      | none => db
    let mem := { mem with
      status := d.status.getD mem.status
      visibility := d.visibility.getD mem.visibility
      is_featured := d.is_featured.getD mem.is_featured
      review_notes := d.review_notes.getD mem.review_notes
      reviewed_by := some caller.id
      reviewed_at := some ctx.now }
    Except.ok (savePost db mem ctx none)

/-- MIN_EXPIRY_DAYS of PostCreateUpdateSerializer (posts/serializers.py
line 228). -/
def MIN_EXPIRY_DAYS : Nat := 30

/-- PostCreateUpdateSerializer normalize expiry (posts/serializers.py
lines 289-299): a missing or too-early expiry is raised to
now + MIN_EXPIRY_DAYS (time counted in days). -/
def normalize_expiry (now : Nat) (expires_at : Option Nat) : Nat :=
  let min_expiry := now + MIN_EXPIRY_DAYS
  match expires_at with
  | none => min_expiry
  | some t => if t < min_expiry then min_expiry else t

/-- The writable fields of PostCreateUpdateSerializer (posts/serializers.py
lines 230-242). -/
structure CreateInput where
  title : String
  content : String
  category : Option Int
  price : Rat
  quantity : Rat
  unit_of_measure : String
  municipality : Option Nat
  visibility : Visibility := Visibility.public
  expires_at : Option Nat := none
deriving DecidableEq, Repr

/-- PostCreateUpdateSerializer.create (posts/serializers.py lines 244-274):
the owner is the authenticated caller, the expiry is normalized, the
image count is bounded by MAX_IMAGES_PER_POST, and the initial status is
written as active for every caller (the privilege flags of the caller are
not consulted), after which Post.objects.create runs the full save. -/
def createPost (ctx : SaveCtx) (caller : Caller) (inp : CreateInput)
    (imageCount maxImages newId : Nat) : Except ApiError Post :=
  if imageCount > maxImages then
    Except.error (ApiError.validation "Too many images.")
  else
    let post : Post := {
      id := newId
      title := inp.title
      slug := ""
      user := caller.id
      category := inp.category
      status := Status.active
      visibility := inp.visibility
      price := inp.price
      quantity := inp.quantity
      unit_of_measure := inp.unit_of_measure
      municipality := inp.municipality
      is_featured := false
      view_count := 0
      expires_at := some (normalize_expiry ctx.now inp.expires_at)
      created_at := ctx.now
      published_at := none
      reviewed_by := none
      reviewed_at := none
      review_notes := "" }
    Except.ok (post.saveLogic ctx)

/-- Post.objects.create at the model layer (fixtures, admin): the given
fields are stored after running the Post.save override; the model default
status is pending_review. -/
def modelCreate (ctx : SaveCtx) (p : Post) : Post :=
  p.saveLogic ctx

/-- One engine operation on a stored post row.  These are the operations
the views and the moderation serializer expose, plus the bare model
save. -/
inductive PostOp
  | opSave
  | opApprove (callerId : Nat)
  | opReject (callerId : Nat) (notes : String)
  | opActivate
  | opMarkAsSold
  | opPauseListing
  | opToggleVisibility
  | opSoftDelete
  | opModerationUpdate (caller : Caller) (d : ModerationData)
deriving DecidableEq, Repr

/-- Apply one operation; the fallible operations report their error. -/
def applyOp (ctx : SaveCtx) (op : PostOp) (db : Post) : Except ApiError Post :=
  match op with
  | PostOp.opSave => Except.ok (savePost db db ctx none)
  | PostOp.opApprove callerId => Except.ok (approve ctx callerId db)
  | PostOp.opReject callerId notes => Except.ok (reject ctx callerId notes db)
  | PostOp.opActivate => activate ctx db
  | PostOp.opMarkAsSold => mark_as_sold ctx db
  | PostOp.opPauseListing => pause_listing ctx db
  | PostOp.opToggleVisibility => Except.ok (toggle_visibility ctx db)
  | PostOp.opSoftDelete => Except.ok (soft_delete ctx db)
  | PostOp.opModerationUpdate caller d => moderation_update ctx caller d db

/-- The stored row after one operation: a rejected operation leaves the
row unchanged. -/
def stepOp (ctx : SaveCtx) (op : PostOp) (db : Post) : Post :=
  match applyOp ctx op db with
  | Except.ok p => p
  | Except.error _ => db

/-- Run a sequence of operations, each with its own clock value. -/
def runOps : List (SaveCtx × PostOp) → Post → Post
  | [], db => db
  | (ctx, op) :: rest, db => runOps rest (stepOp ctx op db)

/-- The declared state machine of the specification: the edges the post
lifecycle is supposed to follow. -/
def declaredEdge : Status → Status → Bool
  | Status.pending_review, Status.approved => true
  | Status.pending_review, Status.rejected => true
  | Status.approved, Status.active => true
  | Status.active, Status.sold => true
  | Status.active, Status.paused => true
  | Status.active, Status.expired => true
  | Status.paused, Status.active => true
  | _, _ => false

/-- The base filter of PostFeedViewSet.get_queryset (posts/views.py
lines 212-225): status active, visibility public, expiry absent or
strictly in the future. -/
def inPublicFeed (now : Nat) (p : Post) : Bool :=
  decide (p.status = Status.active) &&
  decide (p.visibility = Visibility.public) &&
  (match p.expires_at with
   | none => true
   | some e => decide (now < e))

/-- The unfiltered public feed: all stored posts passing the base filter. -/
def publicFeed (posts : List Post) (now : Nat) : List Post :=
  posts.filter (inPublicFeed now)

/-- Value of digit characters, most significant first. -/
def digitsVal (l : List Char) : Nat :=
  l.foldl (fun acc c => acc * 10 + (c.toNat - 48)) 0

/-- Model of the decimal string constructor used by
PostFeedViewSet._get_decimal_param (the stdlib Decimal collaborator):
an optional sign, an integer part and an optional fractional part after
one dot, with at least one digit overall; anything else fails. -/
def parseDecimal (s : String) : Option Rat :=
  let chars := s.toList
  let (neg, rest) :=
    match chars with
    | '-' :: r => (true, r)
    | '+' :: r => (false, r)
    | r => (false, r)
  let intPart := rest.takeWhile Char.isDigit
  let rest2 := rest.drop intPart.length
  let build (ip fp : List Char) : Option Rat :=
    if ip = [] ∧ fp = [] then none
    else
      let m : Int := (digitsVal ip * 10 ^ fp.length + digitsVal fp : Nat)
      some (mkRat (if neg then -m else m) (10 ^ fp.length))
  match rest2 with
  | [] => build intPart []
  | '.' :: frac => if frac.all Char.isDigit then build intPart frac else none
  | _ => none

/-- A DRF ValidationError raised with a one-field dict, as in
PostFeedViewSet._get_decimal_param (posts/views.py lines 199-210). -/
structure FieldError where
  field : String
  message : String
deriving DecidableEq, Repr

/-- PostFeedViewSet._get_decimal_param (posts/views.py lines 199-210):
an absent parameter is accepted as none, a negative value or an
unparsable string raises a ValidationError keyed by the parameter
name. -/
def get_decimal_param (name : String) (value : Option String) :
    Except FieldError (Option Rat) :=
  match value with
  | none => Except.ok none
  | some v =>
    match parseDecimal v with
    | some d =>
      if d < 0 then Except.error ⟨name, "Must be a positive number."⟩
      else Except.ok (some d)
    | none => Except.error ⟨name, "Must be a valid number."⟩

/-- The feed restricted by the min_price query parameter
(posts/views.py lines 236-239): a validated bound keeps only posts with
price greater than or equal to it. -/
def feedWithMinPrice (posts : List Post) (now : Nat) (min_price : Option String) :
    Except FieldError (List Post) :=
  match get_decimal_param "min_price" min_price with
  | Except.error e => Except.error e
  | Except.ok none => Except.ok (publicFeed posts now)
  | Except.ok (some m) => Except.ok ((publicFeed posts now).filter (fun p => decide (m ≤ p.price)))

/-- The Category model row (posts/models.py, class Category): id, optional
parent and active flag. -/
structure Category where
  id : Int
  parent : Option Int
  is_active : Bool
deriving DecidableEq, Repr

/-- Category.objects.filter(parent_id=current, is_active=True) projected
to ids, as used inside the descendant walk. -/
def activeChildren (cats : List Category) (current : Int) : List Int :=
  (cats.filter (fun c => decide (c.parent = some current) && c.is_active)).map Category.id

/-- The while loop of PostFeedViewSet._get_category_and_descendants
(posts/views.py lines 272-281): pop the last stack entry, record it,
push its active children.  The fuel argument bounds the iteration count
so the function is total (the Python loop would not terminate on a
cyclic parent chain). -/
def expandLoop (cats : List Category) : Nat → List Int → List Int → List Int
  | 0, ids, _ => ids
  | _ + 1, ids, [] => ids
  | fuel + 1, ids, t :: ts =>
    let stack := t :: ts
    let current := stack.getLast (List.cons_ne_nil t ts)
    expandLoop cats fuel (ids ++ [current]) (stack.dropLast ++ activeChildren cats current)

/-- Model of the int constructor applied to the query parameter
(the try/except around int(category_id)): an optional sign followed by
one or more digits. -/
def parseInt (s : String) : Option Int :=
  let chars := s.toList
  let (neg, rest) :=
    match chars with
    | '-' :: r => (true, r)
    | '+' :: r => (false, r)
    | r => (false, r)
  if rest ≠ [] ∧ rest.all Char.isDigit then
    let n : Int := digitsVal rest
    some (if neg then -n else n)
  else none

/-- PostFeedViewSet._get_category_and_descendants (posts/views.py
lines 265-281): a category id that does not parse as an integer gives the
empty list, otherwise the id and its active-path descendants are
collected. -/
def get_category_and_descendants (cats : List Category) (category_id : String) (fuel : Nat) :
    List Int :=
  match parseInt category_id with
  | none => []
  | some cid => expandLoop cats fuel [] [cid]

/-- The category branch of PostFeedViewSet.get_queryset (posts/views.py
lines 227-234): a present, non-empty category parameter restricts the
feed to the expanded id set, and an empty expansion yields the empty
queryset. -/
def feedWithCategory (posts : List Post) (cats : List Category) (now : Nat)
    (category : Option String) (fuel : Nat) : List Post :=
  let base := publicFeed posts now
  match category with
  | none => base
  | some s =>
    if s = "" then base
    else
      let category_ids := get_category_and_descendants cats s fuel
      if category_ids ≠ [] then
        base.filter (fun p =>
          match p.category with
          | some c => decide (c ∈ category_ids)
          | none => false)
      else []

/-- An uploaded file as the image pipeline sees it. -/
structure ImageFile where
  name : String
deriving DecidableEq, Repr

/-- The PostImage model row (posts/models.py, class PostImage). -/
structure PostImage where
  post : Nat
  image_url : String
  order : Nat
deriving DecidableEq, Repr

/-- The results dict built by ImageUploadService.upload_images
(posts/services.py lines 141-147). -/
structure UploadResults where
  success_count : Nat
  failed_count : Nat
  uploaded_images : List (String × Nat)
  failed_uploads : List (String × String)
  total_attempted : Nat
deriving DecidableEq, Repr

/-- One iteration of the upload loop (posts/services.py lines 154-193):
the attempt oracle stands for _validate_image_file followed by
_upload_to_s3 (external storage); a success stores a PostImage row with
the loop index as order, a failure is recorded and the loop continues. -/
def uploadStep (attempt : ImageFile → Except String String) (postId : Nat)
    (acc : UploadResults × List PostImage) (item : Nat × ImageFile) :
    UploadResults × List PostImage :=
  let (results, images) := acc
  let (index, file) := item
  match attempt file with
  | Except.ok url =>
    ({ results with
        success_count := results.success_count + 1
        uploaded_images := results.uploaded_images ++ [(url, index)] },
     images ++ [{ post := postId, image_url := url, order := index }])
  | Except.error e =>
    ({ results with
        failed_count := results.failed_count + 1
        failed_uploads := results.failed_uploads ++ [(file.name, e)] },
     images)

/-- ImageUploadService.upload_images (posts/services.py lines 135-198):
after the count check every file is attempted, failures are collected,
and the function returns normally whatever the failure count is. -/
def upload_images (attempt : ImageFile → Except String String)
    (maxImages postId : Nat) (files : List ImageFile) (images : List PostImage) :
    Except String (UploadResults × List PostImage) :=
  if files.length > maxImages then Except.error "Too many images."
  else
    Except.ok (files.enum.foldl (uploadStep attempt postId)
      ({ success_count := 0
         failed_count := 0
         uploaded_images := []
         failed_uploads := []
         total_attempted := files.length }, images))

/-- The stored rows touched by post creation. -/
structure PostStore where
  posts : List Post
  images : List PostImage
deriving DecidableEq, Repr

/-- The creation flow for a request with an image batch: the serializer
persists the post row first (posts/serializers.py line 267) and only then
are the images processed (posts/services.py upload_images); no step
removes the post row afterwards. -/
def createPostWithImages (ctx : SaveCtx) (caller : Caller) (inp : CreateInput)
    (files : List ImageFile) (attempt : ImageFile → Except String String)
    (maxImages newId : Nat) (store : PostStore) :
    Except ApiError (Post × UploadResults × PostStore) :=
  match createPost ctx caller inp files.length maxImages newId with
  | Except.error e => Except.error e
  | Except.ok post =>
    let store := { store with posts := store.posts ++ [post] }
    match upload_images attempt maxImages post.id files store.images with
    | Except.error m => Except.error (ApiError.validation m)
    | Except.ok (results, images) =>
      Except.ok (post, results, { store with images := images })

/-- Alert.SCOPE_CHOICES (alerts/models.py lines 27-30). -/
inductive Scope
  | global
  | departamental
deriving DecidableEq, Repr

/-- The Alert model row (alerts/models.py, class Alert); the nullable
department reference carries the region of a departamental alert and the
category is stored by name. -/
structure Alert where
  id : Nat
  scope : Scope
  department : Option Nat
  alert_title : String
  alert_message : String
  category : String
  created_by : Option Nat
deriving DecidableEq, Repr

/-- The Municipality model row (users/models.py): its department reference
is required. -/
structure Municipality where
  id : Nat
  department : Nat
deriving DecidableEq, Repr

/-- The requesting user as AlertViewSet.get_queryset inspects it:
authentication, presence of a profile, and the profile's nullable
municipality reference. -/
structure AlertCaller where
  isAuthenticated : Bool
  hasProfile : Bool
  municipality : Option Nat
deriving DecidableEq, Repr

/-- The location resolution of AlertViewSet.get_queryset (alerts/views.py
lines 96-104): an authenticated caller with a profile whose municipality
exists resolves to that municipality's department, anyone else resolves
to no region. -/
def resolveDepartment (caller : AlertCaller) (munis : List Municipality) : Option Nat :=
  if caller.isAuthenticated ∧ caller.hasProfile then
    match caller.municipality with
    | some mid =>
      match munis.find? (fun m => decide (m.id = mid)) with
      | some m => some m.department
      | none => none
    | none => none
  else none

/-- The combined alert filter (alerts/views.py lines 91-106): always the
global alerts, plus the departamental alerts of the resolved department
when one exists. -/
def alertVisible (resolved : Option Nat) (a : Alert) : Bool :=
  match resolved with
  | none => decide (a.scope = Scope.global)
  | some d =>
    decide (a.scope = Scope.global) ||
    (decide (a.scope = Scope.departamental) && decide (a.department = some d))

/-- AlertViewSet.get_queryset (alerts/views.py lines 77-106): the stored
alerts restricted to the ones visible to the caller. -/
def alertQueryset (alerts : List Alert) (caller : AlertCaller) (munis : List Municipality) :
    List Alert :=
  alerts.filter (alertVisible (resolveDepartment caller munis))

/-- The detail of a DRF ValidationError: raised with a bare string it is
rendered as a non-field message, raised with a dict it is a
field-to-message map. -/
inductive DrfDetail
  | nonFieldMessage (msg : String)
  | fieldMap (entries : List (String × String))
deriving DecidableEq, Repr

/-- The writable payload of AlertWriteSerrializer (alerts/serializers.py
lines 33-41); the name-based category and department references are
optional strings, an absent or empty value being falsy in the code. -/
structure AlertWriteInput where
  alert_title : String
  alert_message : String
  category_name : Option String
  scope : Scope
  department_name : Option String
deriving DecidableEq, Repr

/-- Python falsiness of an optional string field. -/
def blankOpt : Option String → Bool
  | none => true
  | some s => decide (s = "")

/-- validated_data after AlertWriteSerrializer.validate: the category and
department references resolved by name (the department as its id). -/
structure ValidatedAlert where
  alert_title : String
  alert_message : String
  scope : Scope
  category : String
  department : Option Nat
deriving DecidableEq, Repr

/-- AlertWriteSerrializer.validate (alerts/serializers.py lines 45-80):
a departamental scope without a department name, a missing category name
or an unresolved name lookup each raise a ValidationError built from a
bare string (not from a field-keyed dict). -/
def validateAlert (categories : List String) (departments : List (String × Nat))
    (data : AlertWriteInput) : Except DrfDetail ValidatedAlert :=
  if data.scope = Scope.departamental ∧ blankOpt data.department_name then
    Except.error (DrfDetail.nonFieldMessage
      "Department name must be set for departamental scope alerts.")
  else if blankOpt data.category_name then
    Except.error (DrfDetail.nonFieldMessage "category_name is required.")
  else
    let category_name := data.category_name.getD ""
    if category_name ∈ categories then
      match data.department_name with
      | some department_name =>
        if department_name ≠ "" then
          match departments.find? (fun d => decide (d.fst = department_name)) with
          | some d =>
            Except.ok {
              alert_title := data.alert_title
              alert_message := data.alert_message
              scope := data.scope
              category := category_name
              department := some d.snd }
          | none =>
            Except.error (DrfDetail.nonFieldMessage
              ("Department " ++ department_name ++ " does not exist."))
        else
          Except.ok {
            alert_title := data.alert_title
            alert_message := data.alert_message
            scope := data.scope
            category := category_name
            department := none }
      | none =>
        Except.ok {
          alert_title := data.alert_title
          alert_message := data.alert_message
          scope := data.scope
          category := category_name
          department := none }
    else
      Except.error (DrfDetail.nonFieldMessage
        ("Category " ++ category_name ++ " does not exist."))

/-- AlertViewSet.create composed with AlertWriteSerrializer
(alerts/views.py lines 108-118, alerts/serializers.py lines 82-113):
is_valid runs validate before any write, so a validation failure
persists nothing; on success the alert row is stored with the caller as
created_by. -/
def createAlert (categories : List String) (departments : List (String × Nat))
    (callerId newId : Nat) (data : AlertWriteInput) (alerts : List Alert) :
    Except DrfDetail (Alert × List Alert) :=
  match validateAlert categories departments data with
  | Except.error e => Except.error e
  | Except.ok v =>
    let alert : Alert := {
      id := newId
      scope := v.scope
      department := v.department
      alert_title := v.alert_title
      alert_message := v.alert_message
      category := v.category
      created_by := some callerId }
    Except.ok (alert, alerts ++ [alert])

/-- Closed form of the Post.save override: it rewrites only the slug and
published_at columns of the instance. -/
theorem saveLogic_eq (p : Post) (ctx : SaveCtx) :
    p.saveLogic ctx =
      { p with
        slug := if p.slug = "" then ctx.freshSlug else p.slug
        published_at :=
          if p.status = Status.active ∧ p.published_at = none then some ctx.now
          else p.published_at } := by
  unfold Post.saveLogic
  by_cases h1 : p.slug = "" <;> by_cases h2 : p.status = Status.active ∧ p.published_at = none <;>
    simp [h1, h2]

theorem saveLogic_status (p : Post) (ctx : SaveCtx) :
    (p.saveLogic ctx).status = p.status := by
  rw [saveLogic_eq]

theorem saveLogic_visibility (p : Post) (ctx : SaveCtx) :
    (p.saveLogic ctx).visibility = p.visibility := by
  rw [saveLogic_eq]

theorem saveLogic_published_at (p : Post) (ctx : SaveCtx) :
    (p.saveLogic ctx).published_at =
      if p.status = Status.active ∧ p.published_at = none then some ctx.now
      else p.published_at := by
  rw [saveLogic_eq]

/-- C5: for every post and every unfiltered public-feed request evaluated
at time now, the post is in the feed result if and only if its status is
active, its visibility is public, and its expiry is null or strictly
later than now. -/
theorem C5_public_feed_membership (posts : List Post) (now : Nat) (p : Post) :
    p ∈ publicFeed posts now ↔
      p ∈ posts ∧ p.status = Status.active ∧ p.visibility = Visibility.public ∧
        (p.expires_at = none ∨ ∃ e, p.expires_at = some e ∧ now < e) := by
  unfold publicFeed inPublicFeed
  rw [List.mem_filter]
  cases h : p.expires_at <;> simp [h, and_assoc]

/-- C10: toggle_visibility maps public to private and every non-public
visibility to public, and changes no other column (in particular not the
status). -/
theorem C10_toggle_visibility_spec (ctx : SaveCtx) (p : Post) :
    toggle_visibility ctx p =
      { p with
        visibility :=
          if p.visibility = Visibility.public then Visibility.«private»
          else Visibility.public } := by
  unfold toggle_visibility savePost persistFields
  by_cases h : p.visibility = Visibility.public <;>
    simp only [h, if_true, if_false, List.foldl_cons, List.foldl_nil, setField,
      saveLogic_visibility]

/-- C7: a min_price parameter parsing to a negative decimal, or not
parsing at all, fails with a ValidationError keyed by the parameter name;
a valid non-negative decimal succeeds and every returned post has price
at least the bound. -/
theorem get_decimal_param_negative (name v : String) (d : Rat)
    (h : parseDecimal v = some d) (hneg : d < 0) :
    get_decimal_param name (some v) = Except.error ⟨name, "Must be a positive number."⟩ := by
  simp only [get_decimal_param, h, if_pos hneg]

theorem get_decimal_param_invalid (name v : String) (h : parseDecimal v = none) :
    get_decimal_param name (some v) = Except.error ⟨name, "Must be a valid number."⟩ := by
  simp only [get_decimal_param, h]

theorem get_decimal_param_valid (name v : String) (d : Rat)
    (h : parseDecimal v = some d) (hnn : 0 ≤ d) :
    get_decimal_param name (some v) = Except.ok (some d) := by
  simp only [get_decimal_param, h, if_neg (not_lt.mpr hnn)]

theorem C7_min_price_filter (posts : List Post) (now : Nat) (s : String) :
    (∀ d, parseDecimal s = some d → d < 0 →
        feedWithMinPrice posts now (some s) =
          Except.error ⟨"min_price", "Must be a positive number."⟩) ∧
    (parseDecimal s = none →
        feedWithMinPrice posts now (some s) =
          Except.error ⟨"min_price", "Must be a valid number."⟩) ∧
    (∀ d, parseDecimal s = some d → 0 ≤ d →
        ∃ l, feedWithMinPrice posts now (some s) = Except.ok l ∧
          ∀ p ∈ l, d ≤ p.price) := by
  refine ⟨fun d hd hneg => ?_, fun hnone => ?_, fun d hd hnn => ?_⟩
  · simp only [feedWithMinPrice, get_decimal_param_negative "min_price" s d hd hneg]
  · simp only [feedWithMinPrice, get_decimal_param_invalid "min_price" s hnone]
  · simp only [feedWithMinPrice, get_decimal_param_valid "min_price" s d hd hnn]
    refine ⟨_, rfl, fun p hp => ?_⟩
    have := List.mem_filter.mp hp
    simpa using this.2

/-- Concrete feed rows used to witness the min_price filter. -/
def c7Post : Post := {
  id := 1
  title := "Corn"
  slug := "corn-1"
  user := 3
  category := none
  status := Status.active
  visibility := Visibility.public
  price := 30
  quantity := 2
  unit_of_measure := "kg"
  municipality := none
  is_featured := false
  view_count := 0
  expires_at := none
  created_at := 0
  published_at := some 0
  reviewed_by := none
  reviewed_at := none
  review_notes := "" }

theorem C7_min_price_filter_witness :
    feedWithMinPrice [c7Post] 5 (some "-5") =
        Except.error ⟨"min_price", "Must be a positive number."⟩ ∧
    feedWithMinPrice [c7Post] 5 (some "abc") =
        Except.error ⟨"min_price", "Must be a valid number."⟩ ∧
    (∃ l, feedWithMinPrice [c7Post] 5 (some "25.00") = Except.ok l ∧
      ∀ p ∈ l, (25 : Rat) ≤ p.price) :=
  ⟨(C7_min_price_filter [c7Post] 5 "-5").1 (-5) (by decide) (by decide),
   (C7_min_price_filter [c7Post] 5 "abc").2.1 (by decide),
   (C7_min_price_filter [c7Post] 5 "25.00").2.2 25 (by decide) (by decide)⟩

/-- C8: an alert is visible to a caller exactly when its scope is global,
or its scope is departamental and the caller's resolved department is the
alert's department; a caller with no resolvable department sees exactly
the global alerts. -/
theorem C8_alert_scoping (alerts : List Alert) (caller : AlertCaller)
    (munis : List Municipality) (a : Alert) :
    (a ∈ alertQueryset alerts caller munis ↔
      a ∈ alerts ∧ (a.scope = Scope.global ∨
        (a.scope = Scope.departamental ∧
          ∃ d, resolveDepartment caller munis = some d ∧ a.department = some d))) ∧
    (resolveDepartment caller munis = none →
      (a ∈ alertQueryset alerts caller munis ↔ a ∈ alerts ∧ a.scope = Scope.global)) := by
  constructor
  · unfold alertQueryset
    rw [List.mem_filter]
    unfold alertVisible
    cases h : resolveDepartment caller munis <;> simp [h]
  · intro h
    unfold alertQueryset
    rw [List.mem_filter]
    unfold alertVisible
    rw [h]
    simp

/-- Concrete alerts used to witness the no-region case. -/
def c8GlobalAlert : Alert := {
  id := 1
  scope := Scope.global
  department := none
  alert_title := "National notice"
  alert_message := "Applies everywhere"
  category := "Weather"
  created_by := some 9 }

def c8RegionalAlert : Alert := {
  id := 2
  scope := Scope.departamental
  department := some 4
  alert_title := "Department notice"
  alert_message := "Applies to one department"
  category := "Weather"
  created_by := some 9 }

def c8NoRegionCaller : AlertCaller := {
  isAuthenticated := true
  hasProfile := false
  municipality := none }

theorem C8_alert_scoping_witness :
    resolveDepartment c8NoRegionCaller [] = none ∧
    (c8GlobalAlert ∈ alertQueryset [c8GlobalAlert, c8RegionalAlert] c8NoRegionCaller [] ↔
      c8GlobalAlert ∈ [c8GlobalAlert, c8RegionalAlert] ∧ c8GlobalAlert.scope = Scope.global) :=
  ⟨by decide,
   (C8_alert_scoping [c8GlobalAlert, c8RegionalAlert] c8NoRegionCaller [] c8GlobalAlert).2
     (by decide)⟩

/-- Creation payload of a non-privileged caller (the fixture of
test_create_post_success in posts/tests.py lines 752-775). -/
def c1Input : CreateInput := {
  title := "Fresh Corn"
  content := "Organic sweet corn for sale"
  category := some 1
  price := 15
  quantity := 200
  unit_of_measure := "kg"
  municipality := some 1
  visibility := Visibility.public
  expires_at := none }

/-- C1 (evaluation of the code at the failing input): the serializer
writes status active and stamps published_at for a caller with neither
the moderator group nor the staff flag, where the repository's own tests
(posts/tests.py lines 775 and 1316) and the spec require pending_review
with published_at null for such a caller. -/
theorem C1_create_ignores_privilege :
    (createPost ⟨100, "fresh-corn-ab12cd34"⟩ ⟨7, false, false⟩ c1Input 0 5 1).map Post.status =
        Except.ok Status.active ∧
    (createPost ⟨100, "fresh-corn-ab12cd34"⟩ ⟨7, false, false⟩ c1Input 0 5 1).map
        Post.published_at = Except.ok (some 100) := by
  constructor <;> rfl

theorem stepOp_published_some (ctx : SaveCtx) (op : PostOp) (p : Post) (t : Nat)
    (h : p.published_at = some t) : (stepOp ctx op p).published_at = some t := by
  cases op with
  | opSave =>
    simp [stepOp, applyOp, savePost, persistFields, saveLogic_published_at, h]
  | opApprove callerId =>
    simp [stepOp, applyOp, approve, savePost, persistFields, setField, saveLogic_eq, h]
  | opReject callerId notes =>
    simp [stepOp, applyOp, reject, savePost, persistFields, setField, saveLogic_eq, h]
  | opActivate =>
    by_cases hs : p.status = Status.approved
    · simp [stepOp, applyOp, activate, hs, h, savePost, persistFields, setField, saveLogic_eq]
    · simp [stepOp, applyOp, activate, hs, h]
  | opMarkAsSold =>
    by_cases hs : p.status = Status.active
    · simp [stepOp, applyOp, mark_as_sold, hs, savePost, persistFields, setField, saveLogic_eq, h]
    · simp [stepOp, applyOp, mark_as_sold, hs, h]
  | opPauseListing =>
    by_cases ha : p.status = Status.active
    · simp [stepOp, applyOp, pause_listing, ha, savePost, persistFields, setField, saveLogic_eq, h]
    · by_cases hp : p.status = Status.paused
      · simp [stepOp, applyOp, pause_listing, ha, hp, savePost, persistFields, setField,
          saveLogic_eq, h]
      · simp [stepOp, applyOp, pause_listing, ha, hp, h]
  | opToggleVisibility =>
    by_cases hv : p.visibility = Visibility.public <;>
      simp [stepOp, applyOp, toggle_visibility, hv, savePost, persistFields, setField,
        saveLogic_eq, h]
  | opSoftDelete =>
    simp [stepOp, applyOp, soft_delete, savePost, persistFields, setField, saveLogic_eq, h]
  | opModerationUpdate caller d =>
    by_cases hm : caller.isModerator ∨ caller.isStaff
    · cases hd : d.status with
      | none =>
        simp [stepOp, applyOp, moderation_update, hm, hd, savePost, persistFields,
          saveLogic_eq, h]
      | some ns =>
        by_cases hne : ns = p.status
        · simp [stepOp, applyOp, moderation_update, hm, hd, hne, savePost, persistFields,
            saveLogic_eq, h]
        · simp [stepOp, applyOp, moderation_update, hm, hd, hne, savePost, persistFields,
            saveLogic_eq, h]
    · simp [stepOp, applyOp, moderation_update, hm, h]

theorem runOps_published_some (ops : List (SaveCtx × PostOp)) (p : Post) (t : Nat)
    (h : p.published_at = some t) : (runOps ops p).published_at = some t := by
  induction ops generalizing p with
  | nil => exact h
  | cons hd tl ih => exact ih _ (stepOp_published_some hd.1 hd.2 p t h)

theorem stepOp_becomes_active_stamps (ctx : SaveCtx) (op : PostOp) (p : Post)
    (hnull : p.published_at = none) (hnact : p.status ≠ Status.active)
    (hact : (stepOp ctx op p).status = Status.active) :
    (stepOp ctx op p).published_at = some ctx.now ∨
      (op = PostOp.opPauseListing ∧ p.status = Status.paused) := by
  cases op with
  | opSave =>
    exfalso
    apply hnact
    simpa [stepOp, applyOp, savePost, persistFields, saveLogic_eq] using hact
  | opApprove callerId =>
    exfalso
    simp [stepOp, applyOp, approve, savePost, persistFields, setField, saveLogic_eq] at hact
  | opReject callerId notes =>
    exfalso
    simp [stepOp, applyOp, reject, savePost, persistFields, setField, saveLogic_eq] at hact
  | opActivate =>
    by_cases hs : p.status = Status.approved
    · left
      simp [stepOp, applyOp, activate, hs, hnull, savePost, persistFields, setField, saveLogic_eq]
    · exfalso
      apply hnact
      simpa [stepOp, applyOp, activate, hs] using hact
  | opMarkAsSold =>
    by_cases hs : p.status = Status.active
    · exact absurd hs hnact
    · exfalso
      apply hnact
      simp only [stepOp, applyOp, mark_as_sold, if_pos hs] at hact
      exact hact
  | opPauseListing =>
    by_cases ha : p.status = Status.active
    · exact absurd ha hnact
    · by_cases hp : p.status = Status.paused
      · exact Or.inr ⟨rfl, hp⟩
      · exfalso
        apply hnact
        simp only [stepOp, applyOp, pause_listing, if_pos (And.intro ha hp)] at hact
        exact hact
  | opToggleVisibility =>
    exfalso
    apply hnact
    by_cases hv : p.visibility = Visibility.public <;>
      simpa [stepOp, applyOp, toggle_visibility, hv, savePost, persistFields, setField,
        saveLogic_eq] using hact
  | opSoftDelete =>
    exfalso
    apply hnact
    simpa [stepOp, applyOp, soft_delete, savePost, persistFields, setField,
      saveLogic_eq] using hact
  | opModerationUpdate caller d =>
    by_cases hm : caller.isModerator ∨ caller.isStaff
    · cases hd : d.status with
      | none =>
        exfalso
        apply hnact
        simpa [stepOp, applyOp, moderation_update, hm, hd, savePost, persistFields,
          saveLogic_eq, hnull] using hact
      | some ns =>
        by_cases hne : ns = p.status
        · exfalso
          apply hnact
          simpa [stepOp, applyOp, moderation_update, hm, hd, hne, savePost, persistFields,
            saveLogic_eq, hnull] using hact
        · have hns : ns = Status.active := by
            simpa [stepOp, applyOp, moderation_update, hm, hd, hne, savePost, persistFields,
              saveLogic_eq, hnull] using hact
          have hne2 : ¬(Status.active = p.status) := by
            rw [← hns]
            exact hne
          left
          simp [stepOp, applyOp, moderation_update, hm, hd, hne, hns, hne2, hnull, savePost,
            persistFields, saveLogic_eq]
    · exfalso
      apply hnact
      simpa [stepOp, applyOp, moderation_update, hm] using hact

theorem stepOp_stays_null (ctx : SaveCtx) (op : PostOp) (p : Post)
    (hnull : p.published_at = none) (hnact : (stepOp ctx op p).status ≠ Status.active) :
    (stepOp ctx op p).published_at = none := by
  cases op with
  | opSave =>
    by_cases hs : p.status = Status.active
    · exfalso
      apply hnact
      simp [stepOp, applyOp, savePost, persistFields, saveLogic_eq, hs]
    · simp [stepOp, applyOp, savePost, persistFields, saveLogic_eq, hnull, hs]
  | opApprove callerId =>
    simp [stepOp, applyOp, approve, savePost, persistFields, setField, saveLogic_eq, hnull]
  | opReject callerId notes =>
    simp [stepOp, applyOp, reject, savePost, persistFields, setField, saveLogic_eq, hnull]
  | opActivate =>
    by_cases hs : p.status = Status.approved
    · exfalso
      apply hnact
      simp [stepOp, applyOp, activate, hs, savePost, persistFields, List.foldl_cons,
        List.foldl_nil, setField, saveLogic_eq, hnull]
    · simp [stepOp, applyOp, activate, hs, hnull]
  | opMarkAsSold =>
    by_cases hs : p.status = Status.active
    · simp [stepOp, applyOp, mark_as_sold, hs, savePost, persistFields, setField,
        saveLogic_eq, hnull]
    · simp [stepOp, applyOp, mark_as_sold, hs, hnull]
  | opPauseListing =>
    by_cases ha : p.status = Status.active
    · simp [stepOp, applyOp, pause_listing, ha, savePost, persistFields, setField,
        saveLogic_eq, hnull]
    · by_cases hp : p.status = Status.paused
      · simp [stepOp, applyOp, pause_listing, ha, hp, savePost, persistFields, setField,
          saveLogic_eq, hnull]
      · simp [stepOp, applyOp, pause_listing, ha, hp, hnull]
  | opToggleVisibility =>
    by_cases hv : p.visibility = Visibility.public <;>
      simp [stepOp, applyOp, toggle_visibility, hv, savePost, persistFields, setField,
        saveLogic_eq, hnull]
  | opSoftDelete =>
    simp [stepOp, applyOp, soft_delete, savePost, persistFields, setField, saveLogic_eq, hnull]
  | opModerationUpdate caller d =>
    by_cases hm : caller.isModerator ∨ caller.isStaff
    · cases hd : d.status with
      | none =>
        by_cases hs : p.status = Status.active
        · exfalso
          apply hnact
          simp [stepOp, applyOp, moderation_update, hm, hd, savePost, persistFields,
            saveLogic_eq, hs]
        · simp [stepOp, applyOp, moderation_update, hm, hd, savePost, persistFields,
            saveLogic_eq, hnull, hs]
      | some ns =>
        by_cases hne : ns = p.status
        · by_cases hs : p.status = Status.active
          · exfalso
            apply hnact
            simp [stepOp, applyOp, moderation_update, hm, hd, hne, savePost, persistFields,
              saveLogic_eq, hs]
          · simp [stepOp, applyOp, moderation_update, hm, hd, hne, savePost, persistFields,
              saveLogic_eq, hnull, hs]
        · by_cases hns : ns = Status.active
          · exfalso
            apply hnact
            simp [stepOp, applyOp, moderation_update, hm, hd, hne, hns, savePost,
              persistFields, saveLogic_eq, hnull]
          · simp [stepOp, applyOp, moderation_update, hm, hd, hne, hns, savePost,
              persistFields, saveLogic_eq, hnull]
    · simp [stepOp, applyOp, moderation_update, hm, hnull]

/-- A post stored with the model default status (Post.objects.create as
the fixtures and the admin do it), never yet activated. -/
def c2PendingPost : Post :=
  modelCreate ⟨0, "tomatoes-1a2b3c4d"⟩ {
    id := 1
    title := "Tomatoes"
    slug := ""
    user := 3
    category := none
    status := Status.pending_review
    visibility := Visibility.public
    price := 10
    quantity := 1
    unit_of_measure := "kg"
    municipality := none
    is_featured := false
    view_count := 0
    expires_at := none
    created_at := 0
    published_at := none
    reviewed_by := none
    reviewed_at := none
    review_notes := "" }

/-- The two-step run that defeats the stamp: a moderation update parks the
pending post in paused, then the owner unpauses it; pause_listing saves
with update_fields limited to status, so the stamp computed by Post.save
is never written back. -/
def c2Run : Post :=
  runOps
    [(⟨1, "s1"⟩, PostOp.opModerationUpdate ⟨9, true, false⟩
        ⟨some Status.paused, none, none, none⟩),
     (⟨2, "s2"⟩, PostOp.opPauseListing)]
    c2PendingPost

/-- C2 counterexample: after a moderation update to paused followed by an
unpause, the stored post is active while published_at is still null, so
published_at is not stamped at the first transition into active. -/
theorem C2_counterexample_unpause_skips_stamp :
    c2Run.status = Status.active ∧ c2Run.published_at = none := by
  constructor <;> rfl

/-- C2 (amended): published_at stays null under every operation that does
not leave the post active; a single operation that moves a post with a
null published_at from a non-active status into active stamps
published_at with the operation's clock, except for an unpause
(pause_listing on a paused post), which persists only the status column
and leaves published_at null; and once published_at is non-null no
sequence of engine operations changes or clears it. -/
theorem C2_published_at_invariant_amended :
    (∀ (ctx : SaveCtx) (op : PostOp) (p : Post),
        p.published_at = none → (stepOp ctx op p).status ≠ Status.active →
        (stepOp ctx op p).published_at = none) ∧
    (∀ (ctx : SaveCtx) (op : PostOp) (p : Post),
        p.published_at = none → p.status ≠ Status.active →
        (stepOp ctx op p).status = Status.active →
        (stepOp ctx op p).published_at = some ctx.now ∨
          (op = PostOp.opPauseListing ∧ p.status = Status.paused)) ∧
    (∀ (ops : List (SaveCtx × PostOp)) (p : Post) (t : Nat),
        p.published_at = some t → (runOps ops p).published_at = some t) :=
  ⟨stepOp_stays_null, stepOp_becomes_active_stamps, runOps_published_some⟩

/-- An approved, never published post used to witness the amended C2. -/
def c2ApprovedPost : Post :=
  { c2PendingPost with status := Status.approved }

theorem C2_published_at_invariant_amended_witness :
    ((stepOp ⟨3, "s3"⟩ (PostOp.opApprove 9) c2PendingPost).published_at = none) ∧
    ((stepOp ⟨4, "s4"⟩ PostOp.opActivate c2ApprovedPost).published_at = some 4 ∨
      (PostOp.opActivate = PostOp.opPauseListing ∧ c2ApprovedPost.status = Status.paused)) ∧
    ((runOps [(⟨5, "s5"⟩, PostOp.opMarkAsSold)] { c2ApprovedPost with
        status := Status.active, published_at := some 2 }).published_at = some 2) :=
  ⟨C2_published_at_invariant_amended.1 ⟨3, "s3"⟩ (PostOp.opApprove 9) c2PendingPost rfl
     (by decide),
   C2_published_at_invariant_amended.2.1 ⟨4, "s4"⟩ PostOp.opActivate c2ApprovedPost rfl
     (by decide) (by decide),
   C2_published_at_invariant_amended.2.2 _ _ 2 rfl⟩

/-- A sold post, which the declared state machine calls terminal. -/
def c3SoldPost : Post :=
  { c2PendingPost with status := Status.sold, published_at := some 1 }

/-- C3 counterexample: approve has no precondition, so applied to a sold
post it performs the transition sold to approved, which is not an edge of
the declared state machine and moves the post out of a terminal state. -/
theorem C3_counterexample_approve_from_sold :
    c3SoldPost.status = Status.sold ∧
    (approve ⟨5, "s5"⟩ 9 c3SoldPost).status = Status.approved ∧
    declaredEdge Status.sold Status.approved = false := by
  refine ⟨rfl, rfl, rfl⟩

/-- C3 (amended): the owner self-service operations and activate enforce
the declared machine - a successful activate goes approved to active, a
successful mark_as_sold goes active to sold, a successful pause_listing
toggles between active and paused, each along a declared edge - while
approve, reject and the generic moderation update write their target
status from any current state, so rejected, sold and expired are not
terminal under them. -/
theorem C3_guarded_transitions_amended (ctx : SaveCtx) (p p' : Post) :
    (activate ctx p = Except.ok p' →
      p.status = Status.approved ∧ p'.status = Status.active ∧
        declaredEdge p.status p'.status = true) ∧
    (mark_as_sold ctx p = Except.ok p' →
      p.status = Status.active ∧ p'.status = Status.sold ∧
        declaredEdge p.status p'.status = true) ∧
    (pause_listing ctx p = Except.ok p' →
      ((p.status = Status.active ∧ p'.status = Status.paused) ∨
        (p.status = Status.paused ∧ p'.status = Status.active)) ∧
        declaredEdge p.status p'.status = true) := by
  refine ⟨fun h => ?_, fun h => ?_, fun h => ?_⟩
  · by_cases hs : p.status = Status.approved
    · have hp' : p'.status = Status.active := by
        simp only [activate, hs] at h
        simp at h
        rw [← h]
        simp only [savePost, persistFields, List.foldl_cons, List.foldl_nil, setField]
        rw [saveLogic_status]
        split <;> rfl
      exact ⟨hs, hp', by rw [hs, hp']; rfl⟩
    · simp [activate, hs] at h
  · by_cases hs : p.status = Status.active
    · have hp' : p'.status = Status.sold := by
        simp only [mark_as_sold, hs] at h
        simp at h
        rw [← h]
        simp [savePost, persistFields, setField, saveLogic_eq]
      exact ⟨hs, hp', by rw [hs, hp']; rfl⟩
    · simp [mark_as_sold, hs] at h
  · by_cases ha : p.status = Status.active
    · have hp' : p'.status = Status.paused := by
        simp only [pause_listing, ha] at h
        simp at h
        rw [← h]
        simp [savePost, persistFields, setField, saveLogic_eq]
      exact ⟨Or.inl ⟨ha, hp'⟩, by rw [ha, hp']; rfl⟩
    · by_cases hp : p.status = Status.paused
      · have hp' : p'.status = Status.active := by
          simp only [pause_listing, ha, hp] at h
          simp at h
          rw [← h]
          simp [savePost, persistFields, setField, saveLogic_eq]
        exact ⟨Or.inr ⟨hp, hp'⟩, by rw [hp, hp']; rfl⟩
      · simp [pause_listing, ha, hp] at h

theorem C3_guarded_transitions_amended_witness :
    c2ApprovedPost.status = Status.approved ∧
    (activate ⟨6, "s6"⟩ c2ApprovedPost).map Post.status = Except.ok Status.active ∧
    declaredEdge Status.approved Status.active = true := by
  refine ⟨rfl, ?_, rfl⟩
  obtain ⟨p', hp'⟩ : ∃ p', activate ⟨6, "s6"⟩ c2ApprovedPost = Except.ok p' := ⟨_, rfl⟩
  have h := (C3_guarded_transitions_amended ⟨6, "s6"⟩ c2ApprovedPost p').1 hp'
  rw [hp']
  show Except.ok p'.status = Except.ok Status.active
  rw [h.2.1]

theorem uploadFold_all_fail (attempt : ImageFile → Except String String) (postId : Nat) :
    ∀ (files : List ImageFile) (i : Nat) (r : UploadResults) (imgs : List PostImage),
      (∀ f ∈ files, ∃ e, attempt f = Except.error e) →
      ∃ r', (List.enumFrom i files).foldl (uploadStep attempt postId) (r, imgs) = (r', imgs) ∧
        r'.success_count = r.success_count := by
  intro files
  induction files with
  | nil =>
    intro i r imgs _
    exact ⟨r, rfl, rfl⟩
  | cons f fs ih =>
    intro i r imgs hall
    obtain ⟨e, he⟩ := hall f (List.mem_cons_self f fs)
    have hrest : ∀ g ∈ fs, ∃ e, attempt g = Except.error e :=
      fun g hg => hall g (List.mem_cons_of_mem f hg)
    obtain ⟨r', hr', hcount⟩ := ih (i + 1)
      ({ r with
          failed_count := r.failed_count + 1
          failed_uploads := r.failed_uploads ++ [(f.name, e)] }) imgs hrest
    refine ⟨r', ?_, hcount⟩
    rw [List.enumFrom_cons, List.foldl_cons]
    rw [show uploadStep attempt postId (r, imgs) (i, f) =
        ({ r with
            failed_count := r.failed_count + 1
            failed_uploads := r.failed_uploads ++ [(f.name, e)] }, imgs) from by
      simp [uploadStep, he]]
    exact hr'

/-- C4 (amended): when every upload of a non-empty batch fails, the
creation flow still succeeds, the per-file failures are recorded with a
success count of zero, no image row is stored, and the post row persists;
nothing is rolled back. -/
theorem C4_all_uploads_fail_amended (ctx : SaveCtx) (caller : Caller) (inp : CreateInput)
    (files : List ImageFile) (attempt : ImageFile → Except String String)
    (maxImages newId : Nat) (store : PostStore)
    (_hne : files ≠ []) (hle : files.length ≤ maxImages)
    (hall : ∀ f ∈ files, ∃ e, attempt f = Except.error e) :
    ∃ post results store',
      createPostWithImages ctx caller inp files attempt maxImages newId store =
        Except.ok (post, results, store') ∧
      post ∈ store'.posts ∧ results.success_count = 0 ∧ store'.images = store.images := by
  have hgt : ¬(files.length > maxImages) := not_lt.mpr hle
  obtain ⟨post, hpost⟩ :
      ∃ post, createPost ctx caller inp files.length maxImages newId = Except.ok post := by
    unfold createPost
    rw [if_neg hgt]
    exact ⟨_, rfl⟩
  obtain ⟨r', hr', hcount⟩ :=
    uploadFold_all_fail attempt post.id files 0 ⟨0, 0, [], [], files.length⟩ store.images hall
  refine ⟨post, r', ⟨store.posts ++ [post], store.images⟩, ?_,
    List.mem_append_right _ (List.mem_singleton.mpr rfl), hcount, rfl⟩
  simp only [createPostWithImages, hpost, upload_images, hgt, if_false]
  unfold List.enum
  rw [hr']

/-- Creation payload used in the C4 scenarios. -/
def c4Input : CreateInput := {
  title := "Beans"
  content := "Red beans for sale"
  category := none
  price := 20
  quantity := 50
  unit_of_measure := "kg"
  municipality := none
  visibility := Visibility.public
  expires_at := none }

/-- An upload collaborator whose every attempt fails, as when the storage
client is unavailable (posts/services.py lines 222-225). -/
def c4FailingUpload : ImageFile → Except String String :=
  fun _ => Except.error "S3 upload failed: S3 client not available."

/-- The C4 failing run: a creation request with a one-image batch whose
upload fails, started from an empty store. -/
def c4Run : Except ApiError (Post × UploadResults × PostStore) :=
  createPostWithImages ⟨200, "beans-9f8e7d6c"⟩ ⟨7, false, false⟩ c4Input
    [⟨"beans.jpg"⟩] c4FailingUpload 5 2 ⟨[], []⟩

/-- C4 counterexample: the run succeeds with zero uploaded images out of
one attempted, yet one post row is persisted and no image row exists,
refuting the claim that the post is rolled back. -/
theorem C4_counterexample_post_persists :
    (c4Run.map fun r => r.2.1.success_count) = Except.ok 0 ∧
    (c4Run.map fun r => r.2.1.total_attempted) = Except.ok 1 ∧
    (c4Run.map fun r => r.2.2.posts.length) = Except.ok 1 ∧
    (c4Run.map fun r => r.2.2.images) = Except.ok [] := by
  refine ⟨rfl, rfl, rfl, rfl⟩

theorem C4_all_uploads_fail_amended_witness :
    ∃ post results store',
      createPostWithImages ⟨200, "beans-9f8e7d6c"⟩ ⟨7, false, false⟩ c4Input
          [⟨"rice.jpg"⟩] c4FailingUpload 5 3 ⟨[], []⟩ =
        Except.ok (post, results, store') ∧
      post ∈ store'.posts ∧ results.success_count = 0 ∧
      store'.images = (⟨[], []⟩ : PostStore).images :=
  C4_all_uploads_fail_amended ⟨200, "beans-9f8e7d6c"⟩ ⟨7, false, false⟩ c4Input
    [⟨"rice.jpg"⟩] c4FailingUpload 5 3 ⟨[], []⟩ (by simp) (by simp)
    (fun f _ => ⟨"S3 upload failed: S3 client not available.", rfl⟩)

theorem gcad_parse_fail (cats : List Category) (fuel : Nat) (s : String)
    (h : parseInt s = none) : get_category_and_descendants cats s fuel = [] := by
  unfold get_category_and_descendants
  rw [h]

theorem gcad_no_active_children (cats : List Category) (s : String) (cid : Int) (fuel : Nat)
    (hp : parseInt s = some cid) (hc : activeChildren cats cid = []) :
    get_category_and_descendants cats s (fuel + 2) = [cid] := by
  unfold get_category_and_descendants
  rw [hp]
  show expandLoop cats (fuel + 1 + 1) [] [cid] = [cid]
  rw [expandLoop]
  simp [hc]
  rw [expandLoop]

theorem feedWithCategory_empty_expansion (posts : List Post) (cats : List Category)
    (now : Nat) (s : String) (fuel : Nat) (hs : s ≠ "")
    (hexp : get_category_and_descendants cats s fuel = []) :
    feedWithCategory posts cats now (some s) fuel = [] := by
  unfold feedWithCategory
  simp [hs, hexp]

theorem feedWithCategory_nonexistent_id (posts : List Post) (cats : List Category)
    (now : Nat) (s : String) (cid : Int) (fuel : Nat) (hs : s ≠ "")
    (hp : parseInt s = some cid) (hc : activeChildren cats cid = [])
    (hnone : ∀ p ∈ posts, p.category ≠ some cid) :
    feedWithCategory posts cats now (some s) (fuel + 2) = [] := by
  have hexp := gcad_no_active_children cats s cid fuel hp hc
  simp only [feedWithCategory, hexp]
  rw [if_neg hs]
  rw [if_pos (by simp : ([cid] : List Int) ≠ [])]
  rw [List.filter_eq_nil_iff]
  intro p hpmem
  have hinposts : p ∈ posts := (List.mem_filter.mp hpmem).1
  have hne := hnone p hinposts
  cases hcat : p.category with
  | none => simp
  | some c =>
    simp only [List.mem_singleton, decide_eq_true_eq]
    intro heq
    exact hne (by rw [hcat, heq])

/-- The category store used in the C6 scenarios: one active root with
id 1 and no category with id 99. -/
def c6Cats : List Category := [⟨1, none, true⟩]

/-- C6 counterexample: the descendant expansion of the numeric id 99,
which names no stored category, is the singleton list containing 99, not
the empty set. -/
theorem C6_counterexample_nonexistent_returns_self :
    get_category_and_descendants c6Cats "99" 10 = [99] ∧
    get_category_and_descendants c6Cats "99" 10 ≠ [] := by
  constructor <;> decide

/-- An active public post in category 1 used in the C6 scenarios. -/
def c6Post : Post := { c7Post with id := 2, slug := "corn-2", category := some 1 }

/-- C6 (amended): a category parameter that does not parse as an integer
expands to the empty set; a parsed id with no active children expands to
exactly itself, whether or not it names a stored category; the expansion
of an active chain includes transitive descendants; an empty expansion
makes the feed return zero rows; and a numeric id referenced by no post
also yields zero feed rows, because the filter keeps only posts whose
category is in the expansion. -/
theorem C6_category_expansion_amended :
    (∀ (cats : List Category) (fuel : Nat) (s : String),
        parseInt s = none → get_category_and_descendants cats s fuel = []) ∧
    (∀ (cats : List Category) (s : String) (cid : Int) (fuel : Nat),
        parseInt s = some cid → activeChildren cats cid = [] →
        get_category_and_descendants cats s (fuel + 2) = [cid]) ∧
    (get_category_and_descendants
        [⟨1, none, true⟩, ⟨2, some 1, true⟩, ⟨3, some 2, true⟩] "1" 10 = [1, 2, 3]) ∧
    (∀ (posts : List Post) (cats : List Category) (now : Nat) (s : String) (fuel : Nat),
        s ≠ "" → get_category_and_descendants cats s fuel = [] →
        feedWithCategory posts cats now (some s) fuel = []) ∧
    (∀ (posts : List Post) (cats : List Category) (now : Nat) (s : String) (cid : Int)
        (fuel : Nat),
        s ≠ "" → parseInt s = some cid → activeChildren cats cid = [] →
        (∀ p ∈ posts, p.category ≠ some cid) →
        feedWithCategory posts cats now (some s) (fuel + 2) = []) :=
  ⟨gcad_parse_fail, gcad_no_active_children, by decide,
   feedWithCategory_empty_expansion, feedWithCategory_nonexistent_id⟩

theorem C6_category_expansion_amended_witness :
    get_category_and_descendants c6Cats "abc" 5 = [] ∧
    get_category_and_descendants c6Cats "1" 7 = [1] ∧
    feedWithCategory [c6Post] c6Cats 0 (some "xyz") 5 = [] ∧
    feedWithCategory [c6Post] c6Cats 0 (some "99") 7 = [] :=
  ⟨C6_category_expansion_amended.1 c6Cats 5 "abc" (by decide),
   C6_category_expansion_amended.2.1 c6Cats "1" 1 5 (by decide) (by decide),
   C6_category_expansion_amended.2.2.2.1 [c6Post] c6Cats 0 "xyz" 5 (by decide)
     (C6_category_expansion_amended.1 c6Cats 5 "xyz" (by decide)),
   C6_category_expansion_amended.2.2.2.2 [c6Post] c6Cats 0 "99" 99 5 (by decide) (by decide)
     (by decide) (by decide)⟩

/-- Whether a creation attempt failed with a field-keyed error map. -/
def errorIsFieldMap : Except DrfDetail (Alert × List Alert) → Bool
  | Except.error (DrfDetail.fieldMap _) => true
  | _ => false

/-- A regional alert payload with the region name missing (the failing
half of the spec scenario). -/
def c9Input : AlertWriteInput := {
  alert_title := "Flood warning"
  alert_message := "Heavy rain expected in the region"
  category_name := some "Weather"
  scope := Scope.departamental
  department_name := none }

/-- The same payload with a valid region name supplied. -/
def c9ValidInput : AlertWriteInput := { c9Input with department_name := some "Antioquia" }

/-- C9 counterexample: the missing-region failure is a ValidationError
built from a bare string, rendered as a non-field message; it is not a
field-to-message map and names no field. -/
theorem C9_counterexample_bare_string_error :
    createAlert ["Weather"] [("Antioquia", 4)] 9 1 c9Input [] =
      Except.error (DrfDetail.nonFieldMessage
        "Department name must be set for departamental scope alerts.") ∧
    errorIsFieldMap (createAlert ["Weather"] [("Antioquia", 4)] 9 1 c9Input []) = false := by
  constructor <;> rfl

/-- C9 (amended): a creation request whose scope requires a region but
supplies none fails with a ValidationError carrying the bare message
about the missing department (a non-field error, not a field-keyed map),
and nothing is persisted since the error is returned instead of a new
alert list; the same payload with a category in the store and a region
name resolving in the store succeeds and persists one alert carrying the
resolved department. -/
theorem C9_regional_alert_validation_amended (categories : List String)
    (departments : List (String × Nat)) (callerId newId : Nat) (data : AlertWriteInput)
    (alerts : List Alert) :
    (data.scope = Scope.departamental → blankOpt data.department_name = true →
      createAlert categories departments callerId newId data alerts =
        Except.error (DrfDetail.nonFieldMessage
          "Department name must be set for departamental scope alerts.")) ∧
    (∀ cn dn dep,
      data.category_name = some cn → cn ≠ "" → cn ∈ categories →
      data.department_name = some dn → dn ≠ "" →
      departments.find? (fun d => decide (d.fst = dn)) = some dep →
      ∃ alert, createAlert categories departments callerId newId data alerts =
          Except.ok (alert, alerts ++ [alert]) ∧ alert.department = some dep.snd) := by
  constructor
  · intro h1 h2
    have hv : validateAlert categories departments data =
        Except.error (DrfDetail.nonFieldMessage
          "Department name must be set for departamental scope alerts.") := by
      unfold validateAlert
      rw [if_pos ⟨h1, h2⟩]
    simp only [createAlert, hv]
  · intro cn dn dep hcn hcnne hcnmem hdn hdnne hfind
    have hbc : blankOpt data.category_name = false := by
      rw [hcn]
      simp [blankOpt, hcnne]
    have hbd : blankOpt data.department_name = false := by
      rw [hdn]
      simp [blankOpt, hdnne]
    have hv : validateAlert categories departments data =
        Except.ok {
          alert_title := data.alert_title
          alert_message := data.alert_message
          scope := data.scope
          category := cn
          department := some dep.snd } := by
      unfold validateAlert
      rw [if_neg (by simp [hbd])]
      rw [if_neg (by simp [hbc])]
      simp only [hcn, Option.getD_some, hcnmem, if_true, hdn]
      rw [if_pos hdnne, hfind]
    refine ⟨{
      id := newId
      scope := data.scope
      department := some dep.snd
      alert_title := data.alert_title
      alert_message := data.alert_message
      category := cn
      created_by := some callerId }, ?_, rfl⟩
    simp only [createAlert, hv]

theorem C9_regional_alert_validation_amended_witness :
    createAlert ["Weather"] [("Antioquia", 4)] 9 2 c9Input [] =
      Except.error (DrfDetail.nonFieldMessage
        "Department name must be set for departamental scope alerts.") ∧
    ∃ alert, createAlert ["Weather"] [("Antioquia", 4)] 9 2 c9ValidInput [] =
        Except.ok (alert, [] ++ [alert]) ∧ alert.department = some 4 :=
  ⟨(C9_regional_alert_validation_amended ["Weather"] [("Antioquia", 4)] 9 2 c9Input []).1
      rfl rfl,
   (C9_regional_alert_validation_amended ["Weather"] [("Antioquia", 4)] 9 2 c9ValidInput []).2
      "Weather" "Antioquia" ("Antioquia", 4) rfl (by decide) (by decide) rfl (by decide)
      (by decide)⟩

end Rikarena
